import Mathlib

/-!
# Verification of `wrap_lsport.go` (package `serial`)

A shallow embedding of the serial-port wrapper around the `lsport` driver.

* The `lsport` package is an external collaborator.  It is taken as a
  parameter (`Lsport`): every driver entry point is a function on an explicit
  driver world `W`, which also holds whatever lives behind the pointers the
  wrapper hands out (`*lsport.Conf`).  Driver entry points are assumed to
  return.
* `time.Duration` is a signed 64-bit nanosecond count, modelled by `Int`.
  Go's `uint` has the width of the target's machine word, 32 or 64 bits; that
  width is the parameter `UintSize` of `uint` and of `port.Read`.  `uint16` is
  16 bits wide on every target.  Both conversions wrap (`% 2^w`).
* Every driver call and every `fmt.Printf` is appended to a log, so that
  "which driver call was made, with which arguments" is a statement about the
  log.
* A nil-pointer dereference (`p.fh.Port` with `p.fh == nil`) is the outcome
  `Outcome.nilDeref`.
-/

namespace Serial

/-! ## Data model -/

/-- Errors seen by callers of the wrapper: the package sentinel `ErrTimeout`
(`errors.New("serial:timeout")`) or an error value produced by the driver. -/
inductive Error (E : Type) where
  | ErrTimeout : Error E
  | driver (e : E) : Error E
  deriving DecidableEq, Repr

/-- Go `Config` struct.  `Timeout` is a `time.Duration` (int64 nanoseconds). -/
structure Config where
  Address : String
  BaudRate : Int
  DataBits : Int
  StopBits : Int
  Parity : String
  Timeout : Int
  deriving DecidableEq, Repr

/-- Go `port` struct: `fh *lsport.Conf` (possibly nil) and `timeout`. -/
structure port (Ref : Type) where
  fh : Option Ref
  timeout : Int
  deriving DecidableEq, Repr

/-- One observable action of the wrapper: a call into `lsport` with its
arguments, or a diagnostic `fmt.Printf` with its format and arguments. -/
inductive Event (Ref H E : Type) where
  | init (s : Ref) (address : String) : Event Ref H E
  | setParams (s : Ref) (baud dataBits stopBits : Int) (parity : String) : Event Ref H E
  | blockingRead (p : H) (b : List UInt8) (timeout_ms : Nat) : Event Ref H E
  | blockingWrite (p : H) (b : List UInt8) (timeout : Nat) : Event Ref H E
  | close (fh : Option Ref) : Event Ref H E
  | printfAddr (format : String) (address : String) (err : E) : Event Ref H E
  | printfConfig (format : String) (c : Config) (err : E) : Event Ref H E
  | printfErr (format : String) (err : E) : Event Ref H E
  deriving DecidableEq, Repr

/-- The `lsport` package together with the storage behind `*lsport.Conf`.
`newConf` is the zero-valued `lsport.Conf` literal `s` of `port.Open` together
with `&s`; `Port` reads the field `Port` of the `Conf` behind a pointer.
`BlockingRead` returns the buffer contents after the call, the `int32` count
(whose conversion `int(nn)` keeps the value) and the error. -/
structure Lsport (W Ref H E : Type) where
  newConf : W → Ref × W
  Port : W → Ref → H
  Init : Ref → String → W → Option E × W
  SetParams : Ref → Int → Int → Int → String → W → Option E × W
  BlockingRead : H → List UInt8 → Nat → W → (List UInt8 × Int × Option E) × W
  BlockingWrite : H → List UInt8 → Nat → W → (Int × Option E) × W
  Close : Option Ref → W → W

/-- Everything outside the `port` value: the driver world and the log. -/
structure Sys (W Ref H E : Type) where
  world : W
  log : List (Event Ref H E)

/-- Result of a Go function body that may dereference a nil pointer. -/
inductive Outcome (α : Type) where
  | returned (a : α) : Outcome α
  | nilDeref : Outcome α
  deriving DecidableEq, Repr

/-! ## Machine integers -/

/-- Go `time.Millisecond` (nanoseconds). -/
def Millisecond : Int := 1000000

/-- Go conversion `uint(x)` of a signed 64-bit value, on a target whose `uint`
is `UintSize` bits wide (`math/bits.UintSize`, 32 or 64). -/
def uint (UintSize : Nat) (x : Int) : Nat := (x % 2 ^ UintSize).toNat

/-- Go conversion `uint16(x)` of a signed 64-bit value. -/
def uint16 (x : Int) : Nat := (x % 2 ^ 16).toNat

/-! ## Operations -/

variable {W Ref H E : Type}

/-- Go `New`: a pointer to the zero-valued `port` (nil handle, zero timeout). -/
def New : port Ref := { fh := none, timeout := 0 }

/-- Go `(*port).Open`, for a non-nil `c`.  On either failure the named result
`err` is returned as the driver produced it and `p` is not assigned. -/
def port.Open (L : Lsport W Ref H E) (p : port Ref) (c : Config) (σ : Sys W Ref H E) :
    Option (Error E) × port Ref × Sys W Ref H E :=
  let (s, w0) := L.newConf σ.world
  let (err, w1) := L.Init s c.Address w0
  let log1 := σ.log ++ [Event.init s c.Address]
  match err with
  | some e =>
    (some (Error.driver e), p,
      { world := w1, log := log1 ++ [Event.printfAddr "Open %s fail, Reason: %s\n" c.Address e] })
  | none =>
    let (err2, w2) := L.SetParams s c.BaudRate c.DataBits c.StopBits c.Parity w1
    let log2 := log1 ++ [Event.setParams s c.BaudRate c.DataBits c.StopBits c.Parity]
    match err2 with
    | some e =>
      (some (Error.driver e), p,
        { world := w2, log := log2 ++ [Event.printfConfig "Open %v fail, Reason: %s\n" c e] })
    | none =>
      (none, { fh := some s, timeout := c.Timeout }, { world := w2, log := log2 })

/-- Go package-level `Open`: `p = New(); err = p.Open(c)`. -/
def Open (L : Lsport W Ref H E) (c : Config) (σ : Sys W Ref H E) :
    Option (Error E) × port Ref × Sys W Ref H E :=
  port.Open L New c σ

/-- Go `(*port).Close`: `lsport.Close(p.fh); return nil`. -/
def port.Close (L : Lsport W Ref H E) (p : port Ref) (σ : Sys W Ref H E) :
    Option (Error E) × port Ref × Sys W Ref H E :=
  (none, p, { world := L.Close p.fh σ.world, log := σ.log ++ [Event.close p.fh] })

/-- Go `(*port).Read` on a target whose `uint` is `UintSize` bits wide.
Returns `(n, err)` and the buffer contents after the call. -/
def port.Read (UintSize : Nat) (L : Lsport W Ref H E) (p : port Ref) (b : List UInt8)
    (σ : Sys W Ref H E) : Outcome (Int × Option (Error E)) × List UInt8 × Sys W Ref H E :=
  let timeout_ms : Nat := uint UintSize p.timeout / uint UintSize (1 * Millisecond)
  match p.fh with
  | none => (Outcome.nilDeref, b, σ)
  | some fh =>
    let h := L.Port σ.world fh
    let ((b1, nn, err), w1) := L.BlockingRead h b timeout_ms σ.world
    let σ1 : Sys W Ref H E :=
      { world := w1, log := σ.log ++ [Event.blockingRead h b timeout_ms] }
    match err with
    | some _ => (Outcome.returned (0, some Error.ErrTimeout), b1, σ1)
    | none => (Outcome.returned (nn, none), b1, σ1)

/-- Go `(*port).Write`.  The driver's byte count is discarded (`_`); the named
result `n` keeps its zero value on every return. -/
def port.Write (L : Lsport W Ref H E) (p : port Ref) (b : List UInt8) (σ : Sys W Ref H E) :
    Outcome (Int × Option (Error E)) × Sys W Ref H E :=
  match p.fh with
  | none => (Outcome.nilDeref, σ)
  | some fh =>
    let h := L.Port σ.world fh
    let ((_, err), w1) := L.BlockingWrite h b (uint16 p.timeout) σ.world
    let σ1 : Sys W Ref H E :=
      { world := w1, log := σ.log ++ [Event.blockingWrite h b (uint16 p.timeout)] }
    match err with
    | some e =>
      (Outcome.returned (0, some Error.ErrTimeout),
        { σ1 with log := σ1.log ++ [Event.printfErr "BlockingWrite fail, Reason: %s\n" e] })
    | none => (Outcome.returned (0, none), σ1)

/-! ## A concrete driver used to evaluate the operations -/

/-- Driver errors of the mock driver. -/
inductive MockErr where
  | noDevice : MockErr
  | badParams : MockErr
  | timedOut : MockErr
  deriving DecidableEq, Repr

/-- World of the mock driver: number of `Conf` values handed out so far, the
bytes written to the line that have not been read back yet, the device path
of the last successful `Init` and the line parameters of the last successful
`SetParams`. -/
structure MockWorld where
  confs : Nat
  wire : List UInt8
  device : Option String
  line : Option (Int × Int × Int × String)
  deriving DecidableEq, Repr

/-- An echoing mock driver.  Only the device `/dev/ttyMOCK0` exists, data bits
must lie in 5..8, a write accepts every byte unless more than 8 are offered at
once, and a read times out when the line is empty. -/
def mock : Lsport MockWorld Nat Nat MockErr where
  newConf w := (w.confs, { w with confs := w.confs + 1 })
  Port _ r := r + 100
  Init _ address w :=
    if address = "/dev/ttyMOCK0" then (none, { w with device := some address })
    else (some MockErr.noDevice, w)
  SetParams _ baud dataBits stopBits parity w :=
    if 5 ≤ dataBits ∧ dataBits ≤ 8 then
      (none, { w with line := some (baud, dataBits, stopBits, parity) })
    else (some MockErr.badParams, w)
  BlockingRead _ b _ w :=
    if w.wire = [] then ((b, 0, some MockErr.timedOut), w)
    else
      let k := min b.length w.wire.length
      ((w.wire.take k ++ b.drop k, (k : Int), none), { w with wire := w.wire.drop k })
  BlockingWrite _ b _ w :=
    if 8 < b.length then ((0, some MockErr.timedOut), w)
    else (((b.length : Int), none), { w with wire := w.wire ++ b })
  Close _ w := w

/-- Initial system for the mock driver: nothing allocated, empty line, empty log. -/
def mockSys : Sys MockWorld Nat Nat MockErr :=
  { world := { confs := 0, wire := [], device := none, line := none }, log := [] }

/-- The configuration of the spec's concrete scenario (timeout 100 ms). -/
def mockConfig : Config :=
  { Address := "/dev/ttyMOCK0", BaudRate := 9600, DataBits := 8, StopBits := 1,
    Parity := "E", Timeout := 100000000 }

/-- A configuration naming a device the mock driver does not have. -/
def missingConfig : Config := { mockConfig with Address := "/dev/ttyNONE" }

/-- A configuration whose line parameters the mock driver rejects. -/
def rejectedConfig : Config := { mockConfig with DataBits := 9 }

/-- The port obtained by opening `mockConfig` on the mock driver. -/
def mockPort : port Nat := (Open mock mockConfig mockSys).2.1

/-- The system after opening `mockConfig` on the mock driver. -/
def mockOpened : Sys MockWorld Nat Nat MockErr := (Open mock mockConfig mockSys).2.2

/-- The port and system obtained on the mock driver by `Open` then `Close`. -/
def mockClosed : port Nat × Sys MockWorld Nat Nat MockErr :=
  (port.Close mock mockPort mockOpened).2

/-- The system on the mock driver after `Open`, `Close` and a `Write` of
`[7, 9]` on the closed port: two bytes are waiting on the line. -/
def mockEchoing : Sys MockWorld Nat Nat MockErr :=
  (port.Write mock mockClosed.1 [7, 9] mockClosed.2).2

/-! ## The driver's answers to the calls the wrapper makes -/

/-- The driver's answer to the `lsport.Init` call made by `port.Open`. -/
def driverInit (L : Lsport W Ref H E) (c : Config) (σ : Sys W Ref H E) : Option E × W :=
  L.Init (L.newConf σ.world).1 c.Address (L.newConf σ.world).2

/-- The driver's answer to the `lsport.SetParams` call made by `port.Open`
after `lsport.Init`. -/
def driverSetParams (L : Lsport W Ref H E) (c : Config) (σ : Sys W Ref H E) : Option E × W :=
  L.SetParams (L.newConf σ.world).1 c.BaudRate c.DataBits c.StopBits c.Parity
    (driverInit L c σ).2

/-- The driver's answer to the `lsport.BlockingRead` call made by `port.Read`
on a port whose handle is `fh`: `(buffer, nn, err)` and the new world. -/
def driverRead (UintSize : Nat) (L : Lsport W Ref H E) (fh : Ref) (timeout : Int)
    (b : List UInt8) (σ : Sys W Ref H E) : (List UInt8 × Int × Option E) × W :=
  L.BlockingRead (L.Port σ.world fh) b
    (uint UintSize timeout / uint UintSize (1 * Millisecond)) σ.world

/-- The driver's answer to the `lsport.BlockingWrite` call made by
`port.Write` on a port whose handle is `fh`: `(count, err)` and the new world. -/
def driverWrite (L : Lsport W Ref H E) (fh : Ref) (timeout : Int) (b : List UInt8)
    (σ : Sys W Ref H E) : (Int × Option E) × W :=
  L.BlockingWrite (L.Port σ.world fh) b (uint16 timeout) σ.world

/-- Lines 91-97 of `port.Read`: what it returns once the driver has answered
`d = ((buffer, nn, err), world)` to the `BlockingRead` call that ends `log`. -/
def readFromAnswer (log : List (Event Ref H E)) (d : (List UInt8 × Int × Option E) × W) :
    Outcome (Int × Option (Error E)) × List UInt8 × Sys W Ref H E :=
  ((match d.1.2.2 with
    | some _ => Outcome.returned (0, some Error.ErrTimeout)
    | none => Outcome.returned (d.1.2.1, none)),
   d.1.1, { world := d.2, log := log })

/-- Lines 103-108 of `port.Write`: what it returns once the driver has answered
`d = ((count, err), world)` to the `BlockingWrite` call that ends `log`. -/
def writeFromAnswer (log : List (Event Ref H E)) (d : (Int × Option E) × W) :
    Outcome (Int × Option (Error E)) × Sys W Ref H E :=
  match d.1.2 with
  | some e =>
    (Outcome.returned (0, some Error.ErrTimeout),
      { world := d.2, log := log ++ [Event.printfErr "BlockingWrite fail, Reason: %s\n" e] })
  | none => (Outcome.returned (0, none), { world := d.2, log := log })

/-! ## Unfolding lemmas -/

theorem port.Read_of_handle (UintSize : Nat) (L : Lsport W Ref H E) (p : port Ref) (fh : Ref)
    (b : List UInt8) (σ : Sys W Ref H E) (hp : p.fh = some fh) :
    port.Read UintSize L p b σ =
      ((match (driverRead UintSize L fh p.timeout b σ).1.2.2 with
        | some _ => Outcome.returned (0, some Error.ErrTimeout)
        | none => Outcome.returned ((driverRead UintSize L fh p.timeout b σ).1.2.1, none)),
       (driverRead UintSize L fh p.timeout b σ).1.1,
       { world := (driverRead UintSize L fh p.timeout b σ).2,
         log := σ.log ++ [Event.blockingRead (L.Port σ.world fh) b
                  (uint UintSize p.timeout / uint UintSize (1 * Millisecond))] }) := by
  rcases hd : L.BlockingRead (L.Port σ.world fh) b
    (uint UintSize p.timeout / uint UintSize (1 * Millisecond)) σ.world
    with ⟨⟨b1, nn, err⟩, w1⟩
  unfold port.Read driverRead
  simp only [hp, hd]
  cases err <;> rfl

theorem port.Write_of_handle (L : Lsport W Ref H E) (p : port Ref) (fh : Ref) (b : List UInt8)
    (σ : Sys W Ref H E) (hp : p.fh = some fh) :
    port.Write L p b σ =
      (match (driverWrite L fh p.timeout b σ).1.2 with
        | some e =>
          (Outcome.returned (0, some Error.ErrTimeout),
            { world := (driverWrite L fh p.timeout b σ).2,
              log := (σ.log ++ [Event.blockingWrite (L.Port σ.world fh) b (uint16 p.timeout)])
                ++ [Event.printfErr "BlockingWrite fail, Reason: %s\n" e] })
        | none =>
          (Outcome.returned (0, none),
            { world := (driverWrite L fh p.timeout b σ).2,
              log := σ.log ++ [Event.blockingWrite (L.Port σ.world fh) b (uint16 p.timeout)] })) := by
  rcases hd : L.BlockingWrite (L.Port σ.world fh) b (uint16 p.timeout) σ.world
    with ⟨⟨k, err⟩, w1⟩
  unfold port.Write driverWrite
  simp only [hp, hd]

theorem port.Open_of_init_error (L : Lsport W Ref H E) (p : port Ref) (c : Config)
    (σ : Sys W Ref H E) (e : E) (h : (driverInit L c σ).1 = some e) :
    port.Open L p c σ =
      (some (Error.driver e), p,
        { world := (driverInit L c σ).2,
          log := (σ.log ++ [Event.init (L.newConf σ.world).1 c.Address])
            ++ [Event.printfAddr "Open %s fail, Reason: %s\n" c.Address e] }) := by
  unfold driverInit at h ⊢
  unfold port.Open
  rcases hn : L.newConf σ.world with ⟨s, w0⟩
  rw [hn] at h
  rcases hi : L.Init s c.Address w0 with ⟨err, w1⟩
  simp only [hi] at h
  subst h
  simp [hi]

theorem port.Open_of_params_error (L : Lsport W Ref H E) (p : port Ref) (c : Config)
    (σ : Sys W Ref H E) (e : E) (h1 : (driverInit L c σ).1 = none)
    (h2 : (driverSetParams L c σ).1 = some e) :
    port.Open L p c σ =
      (some (Error.driver e), p,
        { world := (driverSetParams L c σ).2,
          log := (σ.log ++ [Event.init (L.newConf σ.world).1 c.Address]
              ++ [Event.setParams (L.newConf σ.world).1 c.BaudRate c.DataBits c.StopBits
                    c.Parity])
            ++ [Event.printfConfig "Open %v fail, Reason: %s\n" c e] }) := by
  unfold driverSetParams at h2 ⊢
  unfold driverInit at h1 h2 ⊢
  unfold port.Open
  rcases hn : L.newConf σ.world with ⟨s, w0⟩
  rw [hn] at h1 h2
  rcases hi : L.Init s c.Address w0 with ⟨err, w1⟩
  simp only [hi] at h1 h2
  subst h1
  rcases hs : L.SetParams s c.BaudRate c.DataBits c.StopBits c.Parity w1 with ⟨err2, w2⟩
  simp only [hs] at h2
  subst h2
  simp [hi, hs]

theorem port.Open_of_success (L : Lsport W Ref H E) (p : port Ref) (c : Config)
    (σ : Sys W Ref H E) (h1 : (driverInit L c σ).1 = none)
    (h2 : (driverSetParams L c σ).1 = none) :
    port.Open L p c σ =
      (none, { fh := some (L.newConf σ.world).1, timeout := c.Timeout },
        { world := (driverSetParams L c σ).2,
          log := σ.log ++ [Event.init (L.newConf σ.world).1 c.Address]
              ++ [Event.setParams (L.newConf σ.world).1 c.BaudRate c.DataBits c.StopBits
                    c.Parity] }) := by
  unfold driverSetParams at h2 ⊢
  unfold driverInit at h1 h2 ⊢
  unfold port.Open
  rcases hn : L.newConf σ.world with ⟨s, w0⟩
  rw [hn] at h1 h2
  rcases hi : L.Init s c.Address w0 with ⟨err, w1⟩
  simp only [hi] at h1 h2
  subst h1
  rcases hs : L.SetParams s c.BaudRate c.DataBits c.StopBits c.Parity w1 with ⟨err2, w2⟩
  simp only [hs] at h2
  subst h2
  simp [hi, hs]

theorem port.Open_error_eq_none_iff (L : Lsport W Ref H E) (p : port Ref) (c : Config)
    (σ : Sys W Ref H E) :
    (port.Open L p c σ).1 = none ↔
      (driverInit L c σ).1 = none ∧ (driverSetParams L c σ).1 = none := by
  cases h1 : (driverInit L c σ).1 with
  | some e => simp [port.Open_of_init_error L p c σ e h1]
  | none =>
    cases h2 : (driverSetParams L c σ).1 with
    | some e => simp [port.Open_of_params_error L p c σ e h1 h2]
    | none => simp [port.Open_of_success L p c σ h1 h2]

theorem uint_Millisecond (UintSize : Nat) (hw : UintSize = 32 ∨ UintSize = 64) :
    uint UintSize (1 * Millisecond) = 1000000 := by
  rcases hw with h | h <;> subst h <;> decide

theorem uint_of_nonneg_of_lt (UintSize : Nat) (d : Int) (h0 : 0 ≤ d) (h1 : d < 2 ^ UintSize) :
    uint UintSize d = d.toNat := by
  unfold uint
  rw [Int.emod_eq_of_lt h0 h1]

theorem read_timeout_ms (UintSize : Nat) (hw : UintSize = 32 ∨ UintSize = 64) (d : Int)
    (h0 : 0 ≤ d) (h1 : d < 2 ^ UintSize) :
    uint UintSize d / uint UintSize (1 * Millisecond) = (d / 1000000).toNat := by
  rw [uint_Millisecond UintSize hw, uint_of_nonneg_of_lt UintSize d h0 h1]
  omega

theorem port.Read_eq_readFromAnswer (UintSize : Nat) (L : Lsport W Ref H E) (p : port Ref)
    (fh : Ref) (b : List UInt8) (σ : Sys W Ref H E) (hp : p.fh = some fh) :
    port.Read UintSize L p b σ =
      readFromAnswer
        (σ.log ++ [Event.blockingRead (L.Port σ.world fh) b
          (uint UintSize p.timeout / uint UintSize (1 * Millisecond))])
        (L.BlockingRead (L.Port σ.world fh) b
          (uint UintSize p.timeout / uint UintSize (1 * Millisecond)) σ.world) := by
  rw [port.Read_of_handle UintSize L p fh b σ hp]
  rfl

theorem port.Write_eq_writeFromAnswer (L : Lsport W Ref H E) (p : port Ref)
    (fh : Ref) (b : List UInt8) (σ : Sys W Ref H E) (hp : p.fh = some fh) :
    port.Write L p b σ =
      writeFromAnswer
        (σ.log ++ [Event.blockingWrite (L.Port σ.world fh) b (uint16 p.timeout)])
        (L.BlockingWrite (L.Port σ.world fh) b (uint16 p.timeout) σ.world) := by
  rw [port.Write_of_handle L p fh b σ hp]
  unfold writeFromAnswer driverWrite
  cases (L.BlockingWrite (L.Port σ.world fh) b (uint16 p.timeout) σ.world).1.2 <;> rfl

theorem port.Read_of_nil (UintSize : Nat) (L : Lsport W Ref H E) (p : port Ref)
    (b : List UInt8) (σ : Sys W Ref H E) (hp : p.fh = none) :
    port.Read UintSize L p b σ = (Outcome.nilDeref, b, σ) := by
  unfold port.Read
  simp only [hp]

theorem port.Write_of_nil (L : Lsport W Ref H E) (p : port Ref)
    (b : List UInt8) (σ : Sys W Ref H E) (hp : p.fh = none) :
    port.Write L p b σ = (Outcome.nilDeref, σ) := by
  unfold port.Write
  simp only [hp]

theorem uint16_eq_of_congr (d1 d2 : Int) (h : (d1 - d2) % 65536 = 0) :
    uint16 d1 = uint16 d2 := by
  unfold uint16
  have : d1 % 2 ^ 16 = d2 % 2 ^ 16 := by omega
  rw [this]

/-! ## Claims -/

/-- C1 (evaluation at the failing input): on the port opened on the mock
driver, the driver accepts all three bytes of `[1, 2, 3]` and reports 3 without
error, yet `port.Write` returns the count 0 with no error. -/
theorem C1_Write_reports_zero_bytes :
    (driverWrite mock 0 mockPort.timeout [1, 2, 3] mockOpened).1 = (3, none) ∧
    mockPort.fh = some 0 ∧
    (port.Write mock mockPort [1, 2, 3] mockOpened).1 = Outcome.returned (0, none) := by
  decide

/-- C2 (evaluation at the failing input): with a configured timeout of 100 ms
(100,000,000 ns) `port.Write` passes 57600 to the driver, whereas the timeout in
whole milliseconds saturated at 65535 is 100; `port.Read` on the same port does
pass 100, on 64-bit and on 32-bit targets. -/
theorem C2_Write_timeout_not_milliseconds :
    mockPort = { fh := some 0, timeout := 100000000 } ∧
    (port.Write mock mockPort [1, 2, 3] mockOpened).2.log =
      mockOpened.log ++ [Event.blockingWrite 100 [1, 2, 3] 57600] ∧
    min ((100000000 : Int) / 1000000).toNat 65535 = 100 ∧
    (port.Read 64 mock mockPort [0, 0, 0] mockOpened).2.2.log =
      mockOpened.log ++ [Event.blockingRead 100 [0, 0, 0] 100] ∧
    (port.Read 32 mock mockPort [0, 0, 0] mockOpened).2.2.log =
      mockOpened.log ++ [Event.blockingRead 100 [0, 0, 0] 100] := by
  decide

/-- C3 (counterexample): on a target whose `uint` is 32 bits wide, an open
port with a timeout of 5 s (5,000,000,000 ns) makes `port.Read` pass 705 to
the driver, whereas `floor(d / 1,000,000)` is 5000. -/
theorem C3_counterexample :
    (port.Read 32 mock { fh := some 0, timeout := 5000000000 } [0, 0, 0] mockEchoing).2.2.log =
      mockEchoing.log ++ [Event.blockingRead 100 [0, 0, 0] 705] ∧
    port.Read 32 mock { fh := some 0, timeout := 5000000000 } [0, 0, 0] mockEchoing =
      readFromAnswer (mockEchoing.log ++ [Event.blockingRead 100 [0, 0, 0] 705])
        (mock.BlockingRead 100 [0, 0, 0] 705 mockEchoing.world) ∧
    ((5000000000 : Int) / 1000000).toNat = 5000 ∧
    (0 : Int) ≤ 5000000000 ∧ (5000000000 : Int) < 2 ^ 63 := by
  refine ⟨by decide, rfl, by decide, by decide, by decide⟩

/-- C3 (amended): on a target whose `uint` is `UintSize` bits wide (32 or 64),
for an open port whose timeout `d` satisfies `0 ≤ d < 2 ^ UintSize` (every
non-negative duration when `UintSize = 64`), `port.Read` is the driver's
`BlockingRead` called with the stored handle, the buffer and the timeout
`floor(d / 1,000,000)`: it returns what lines 91-97 make of that call's
answer, and that call is the one action it adds to the log. -/
theorem C3_Read_timeout_whole_milliseconds (UintSize : Nat) (L : Lsport W Ref H E)
    (p : port Ref) (fh : Ref) (b : List UInt8) (σ : Sys W Ref H E) (hp : p.fh = some fh)
    (hw : UintSize = 32 ∨ UintSize = 64)
    (h0 : 0 ≤ p.timeout) (h1 : p.timeout < 2 ^ UintSize) :
    port.Read UintSize L p b σ =
      readFromAnswer
        (σ.log ++ [Event.blockingRead (L.Port σ.world fh) b (p.timeout / 1000000).toNat])
        (L.BlockingRead (L.Port σ.world fh) b (p.timeout / 1000000).toNat σ.world) := by
  rw [port.Read_eq_readFromAnswer UintSize L p fh b σ hp,
    read_timeout_ms UintSize hw p.timeout h0 h1]

/-- Witness of C3 (amended): with two bytes waiting on the line of the mock
driver, 1,999,999 ns gives 1 ms on a 64-bit target and 999,999 ns gives 0 ms
on a 32-bit target; the read consumes the two bytes. -/
theorem C3_Read_timeout_whole_milliseconds_witness :
    port.Read 64 mock { fh := some 0, timeout := 1999999 } [0, 0, 0] mockEchoing =
      readFromAnswer (mockEchoing.log ++ [Event.blockingRead 100 [0, 0, 0] 1])
        (mock.BlockingRead 100 [0, 0, 0] 1 mockEchoing.world) ∧
    port.Read 32 mock { fh := some 0, timeout := 999999 } [0, 0, 0] mockEchoing =
      readFromAnswer (mockEchoing.log ++ [Event.blockingRead 100 [0, 0, 0] 0])
        (mock.BlockingRead 100 [0, 0, 0] 0 mockEchoing.world) ∧
    (mock.BlockingRead 100 [0, 0, 0] 1 mockEchoing.world).1 = ([7, 9, 0], 2, none) ∧
    (mock.BlockingRead 100 [0, 0, 0] 1 mockEchoing.world).2.wire = [] ∧
    mockEchoing.world.wire = [7, 9] :=
  ⟨C3_Read_timeout_whole_milliseconds 64 mock { fh := some 0, timeout := 1999999 } 0 [0, 0, 0]
      mockEchoing rfl (Or.inr rfl) (by decide) (by decide),
   C3_Read_timeout_whole_milliseconds 32 mock { fh := some 0, timeout := 999999 } 0 [0, 0, 0]
      mockEchoing rfl (Or.inl rfl) (by decide) (by decide),
   by decide, by decide, by decide⟩

/-- C4: on an open port, whenever the driver's blocking read (resp. write)
reports an error, `port.Read` (resp. `port.Write`) returns count 0 and exactly
`ErrTimeout`, independently of the driver's error value and count; and
`ErrTimeout` is returned only when the driver reported an error. -/
theorem C4_driver_error_becomes_ErrTimeout (UintSize : Nat) (L : Lsport W Ref H E)
    (p : port Ref) (fh : Ref) (b : List UInt8) (σ : Sys W Ref H E) (hp : p.fh = some fh) :
    ((driverRead UintSize L fh p.timeout b σ).1.2.2 ≠ none →
        (port.Read UintSize L p b σ).1 = Outcome.returned (0, some Error.ErrTimeout)) ∧
    ((driverWrite L fh p.timeout b σ).1.2 ≠ none →
        (port.Write L p b σ).1 = Outcome.returned (0, some Error.ErrTimeout)) ∧
    (∀ n, (port.Read UintSize L p b σ).1 = Outcome.returned (n, some Error.ErrTimeout) →
        (driverRead UintSize L fh p.timeout b σ).1.2.2 ≠ none) ∧
    (∀ n, (port.Write L p b σ).1 = Outcome.returned (n, some Error.ErrTimeout) →
        (driverWrite L fh p.timeout b σ).1.2 ≠ none) := by
  rw [port.Read_of_handle UintSize L p fh b σ hp, port.Write_of_handle L p fh b σ hp]
  cases hr : (driverRead UintSize L fh p.timeout b σ).1.2.2 <;>
    cases hw : (driverWrite L fh p.timeout b σ).1.2 <;> simp

/-- Witness of C4: the mock driver times out on an empty line and refuses a
nine-byte write; both surface as `(0, ErrTimeout)`. -/
theorem C4_driver_error_becomes_ErrTimeout_witness :
    (driverRead 64 mock 0 mockPort.timeout [0, 0, 0] mockOpened).1.2.2 = some MockErr.timedOut ∧
    (driverWrite mock 0 mockPort.timeout [1, 2, 3, 4, 5, 6, 7, 8, 9] mockOpened).1.2 =
      some MockErr.timedOut ∧
    (port.Read 64 mock mockPort [0, 0, 0] mockOpened).1 =
      Outcome.returned (0, some Error.ErrTimeout) ∧
    (port.Write mock mockPort [1, 2, 3, 4, 5, 6, 7, 8, 9] mockOpened).1 =
      Outcome.returned (0, some Error.ErrTimeout) :=
  ⟨by decide, by decide,
   (C4_driver_error_becomes_ErrTimeout 64 mock mockPort 0 [0, 0, 0] mockOpened (by decide)).1
      (by decide),
   (C4_driver_error_becomes_ErrTimeout 64 mock mockPort 0 [1, 2, 3, 4, 5, 6, 7, 8, 9] mockOpened
      (by decide)).2.1 (by decide)⟩

/-- C5: if the driver's `Init` fails with `e`, or `Init` succeeds and
`SetParams` fails with `e`, then `port.Open` returns exactly that driver error
and the port value is unchanged; when `Init` fails the only actions are the
`Init` call and the diagnostic print, so `SetParams` is not called; a fresh
port whose `Open` fails is still the value returned by `New`. -/
theorem C5_Open_failure_leaves_port_unchanged (L : Lsport W Ref H E) (p : port Ref)
    (c : Config) (σ : Sys W Ref H E) (e : E)
    (h : (driverInit L c σ).1 = some e ∨
      ((driverInit L c σ).1 = none ∧ (driverSetParams L c σ).1 = some e)) :
    (port.Open L p c σ).1 = some (Error.driver e) ∧
    (port.Open L p c σ).2.1 = p ∧
    (Open L c σ).2.1 = New ∧
    ((driverInit L c σ).1 = some e →
      (port.Open L p c σ).2.2.log =
        σ.log ++ [Event.init (L.newConf σ.world).1 c.Address,
          Event.printfAddr "Open %s fail, Reason: %s\n" c.Address e]) := by
  rcases h with h | ⟨h1, h2⟩
  · unfold Open
    rw [port.Open_of_init_error L p c σ e h, port.Open_of_init_error L New c σ e h]
    simp
  · unfold Open
    rw [port.Open_of_params_error L p c σ e h1 h2, port.Open_of_params_error L New c σ e h1 h2]
    simp [h1]

/-- Witness of C5: a missing device on an already opened port, and rejected line
parameters on a fresh port. -/
theorem C5_Open_failure_leaves_port_unchanged_witness :
    (driverInit mock missingConfig mockOpened).1 = some MockErr.noDevice ∧
    (port.Open mock mockPort missingConfig mockOpened).1 =
      some (Error.driver MockErr.noDevice) ∧
    (port.Open mock mockPort missingConfig mockOpened).2.1 = mockPort ∧
    (driverSetParams mock rejectedConfig mockSys).1 = some MockErr.badParams ∧
    (port.Open mock (New : port Nat) rejectedConfig mockSys).1 =
      some (Error.driver MockErr.badParams) ∧
    (port.Open mock (New : port Nat) rejectedConfig mockSys).2.1 = New :=
  ⟨by decide,
   (C5_Open_failure_leaves_port_unchanged mock mockPort missingConfig mockOpened
      MockErr.noDevice (Or.inl (by decide))).1,
   (C5_Open_failure_leaves_port_unchanged mock mockPort missingConfig mockOpened
      MockErr.noDevice (Or.inl (by decide))).2.1,
   by decide,
   (C5_Open_failure_leaves_port_unchanged mock New rejectedConfig mockSys
      MockErr.badParams (Or.inr ⟨by decide, by decide⟩)).1,
   (C5_Open_failure_leaves_port_unchanged mock New rejectedConfig mockSys
      MockErr.badParams (Or.inr ⟨by decide, by decide⟩)).2.1⟩

/-- C6: let `s` be the fresh `Conf` of `port.Open`, `(e1, w1)` the driver's
answer to `Init(s, c.Address)` and `(e2, w2)` its answer to `SetParams` called
on `s` with exactly the config's baud rate, data bits, stop bits and parity in
the world `Init` left.  If both report no error, `port.Open` returns no error,
the port holds `s` and `c.Timeout`, the driver world is the one `SetParams`
left and the log gained exactly these two calls.  `port.Open` returns no error
exactly when both driver calls do; for a port that did not already hold `s`
(every fresh port), exactly when the port ends up holding `s` and
`c.Timeout`; package-level `Open` exactly when its port holds a handle.  On the
opened port `Read` and `Write` are the driver's blocking read and write called
with the `Port` of `s`. -/
theorem C6_Open_success_stores_handle_and_timeout (L : Lsport W Ref H E) (p : port Ref)
    (c : Config) (σ : Sys W Ref H E) (s : Ref) (w0 w1 w2 : W) (e1 e2 : Option E)
    (hs : L.newConf σ.world = (s, w0))
    (hi : L.Init s c.Address w0 = (e1, w1))
    (hp : L.SetParams s c.BaudRate c.DataBits c.StopBits c.Parity w1 = (e2, w2)) :
    (e1 = none → e2 = none →
      port.Open L p c σ =
        (none, { fh := some s, timeout := c.Timeout },
          { world := w2,
            log := σ.log ++ [Event.init s c.Address,
              Event.setParams s c.BaudRate c.DataBits c.StopBits c.Parity] })) ∧
    ((port.Open L p c σ).1 = none ↔ e1 = none ∧ e2 = none) ∧
    (p.fh ≠ some s →
      ((port.Open L p c σ).1 = none ↔
        (port.Open L p c σ).2.1 = { fh := some s, timeout := c.Timeout })) ∧
    ((Open L c σ).1 = none ↔ ∃ fh, (Open L c σ).2.1.fh = some fh) ∧
    ((port.Open L p c σ).1 = none →
      ∀ (UintSize : Nat) (b : List UInt8) (τ : Sys W Ref H E),
        port.Read UintSize L (port.Open L p c σ).2.1 b τ =
          readFromAnswer
            (τ.log ++ [Event.blockingRead (L.Port τ.world s) b
              (uint UintSize c.Timeout / uint UintSize (1 * Millisecond))])
            (L.BlockingRead (L.Port τ.world s) b
              (uint UintSize c.Timeout / uint UintSize (1 * Millisecond)) τ.world) ∧
        port.Write L (port.Open L p c σ).2.1 b τ =
          writeFromAnswer
            (τ.log ++ [Event.blockingWrite (L.Port τ.world s) b (uint16 c.Timeout)])
            (L.BlockingWrite (L.Port τ.world s) b (uint16 c.Timeout) τ.world)) := by
  have hs1 : (L.newConf σ.world).1 = s := by rw [hs]
  have hI : driverInit L c σ = (e1, w1) := by
    unfold driverInit
    rw [hs]
    exact hi
  have hP : driverSetParams L c σ = (e2, w2) := by
    unfold driverSetParams
    rw [hI, hs]
    exact hp
  have hI1 : (driverInit L c σ).1 = e1 := by rw [hI]
  have hP1 : (driverSetParams L c σ).1 = e2 := by rw [hP]
  have hP2 : (driverSetParams L c σ).2 = w2 := by rw [hP]
  have hsucc : e1 = none → e2 = none →
      port.Open L p c σ =
        (none, { fh := some s, timeout := c.Timeout },
          { world := w2,
            log := σ.log ++ [Event.init s c.Address,
              Event.setParams s c.BaudRate c.DataBits c.StopBits c.Parity] }) := by
    intro g1 g2
    rw [port.Open_of_success L p c σ (hI1.trans g1) (hP1.trans g2), hs1, hP2]
    simp
  have hiff : (port.Open L p c σ).1 = none ↔ e1 = none ∧ e2 = none := by
    rw [port.Open_error_eq_none_iff, hI1, hP1]
  refine ⟨hsucc, hiff, ?_, ?_, ?_⟩
  · intro hfresh
    constructor
    · intro hok
      rw [hsucc (hiff.1 hok).1 (hiff.1 hok).2]
    · intro hport
      cases g1 : e1 with
      | some e =>
        rw [port.Open_of_init_error L p c σ e (hI1.trans g1)] at hport
        have hq : p = { fh := some s, timeout := c.Timeout } := hport
        exact absurd (by rw [hq]) hfresh
      | none =>
        cases g2 : e2 with
        | some e =>
          rw [port.Open_of_params_error L p c σ e (hI1.trans g1) (hP1.trans g2)] at hport
          have hq : p = { fh := some s, timeout := c.Timeout } := hport
          exact absurd (by rw [hq]) hfresh
        | none => exact hiff.2 ⟨g1, g2⟩
  · unfold Open
    cases g1 : (driverInit L c σ).1 with
    | some e =>
      rw [port.Open_of_init_error L New c σ e g1]
      simp [New]
    | none =>
      cases g2 : (driverSetParams L c σ).1 with
      | some e =>
        rw [port.Open_of_params_error L New c σ e g1 g2]
        simp [New]
      | none =>
        rw [port.Open_of_success L New c σ g1 g2]
        simp
  · intro hok UintSize b τ
    rw [hsucc (hiff.1 hok).1 (hiff.1 hok).2]
    exact ⟨port.Read_eq_readFromAnswer UintSize L _ s b τ rfl,
      port.Write_eq_writeFromAnswer L _ s b τ rfl⟩

/-- Witness of C6: the spec's concrete scenario on the mock driver, whose
world records the opened device and the applied line parameters; rejected line
parameters make `Open` fail; and `Read`, `Write` on the opened port go through
the mock driver's blocking read and write with handle 100. -/
theorem C6_Open_success_stores_handle_and_timeout_witness :
    port.Open mock (New : port Nat) mockConfig mockSys =
      (none, { fh := some 0, timeout := 100000000 },
        { world := { confs := 1, wire := [], device := some "/dev/ttyMOCK0",
                     line := some (9600, 8, 1, "E") },
          log := [Event.init 0 "/dev/ttyMOCK0", Event.setParams 0 9600 8 1 "E"] }) ∧
    (port.Open mock (New : port Nat) rejectedConfig mockSys).1 ≠ none ∧
    port.Read 64 mock (port.Open mock (New : port Nat) mockConfig mockSys).2.1 [0, 0, 0]
        mockEchoing =
      readFromAnswer (mockEchoing.log ++ [Event.blockingRead 100 [0, 0, 0] 100])
        (mock.BlockingRead 100 [0, 0, 0] 100 mockEchoing.world) ∧
    port.Write mock (port.Open mock (New : port Nat) mockConfig mockSys).2.1 [1, 2, 3]
        mockEchoing =
      writeFromAnswer (mockEchoing.log ++ [Event.blockingWrite 100 [1, 2, 3] 57600])
        (mock.BlockingWrite 100 [1, 2, 3] 57600 mockEchoing.world) :=
  ⟨(C6_Open_success_stores_handle_and_timeout mock New mockConfig mockSys 0
      { confs := 1, wire := [], device := none, line := none }
      { confs := 1, wire := [], device := some "/dev/ttyMOCK0", line := none }
      { confs := 1, wire := [], device := some "/dev/ttyMOCK0", line := some (9600, 8, 1, "E") }
      none none rfl rfl rfl).1 rfl rfl,
   fun h => Option.noConfusion
     ((C6_Open_success_stores_handle_and_timeout mock New rejectedConfig mockSys 0
      { confs := 1, wire := [], device := none, line := none }
      { confs := 1, wire := [], device := some "/dev/ttyMOCK0", line := none }
      { confs := 1, wire := [], device := some "/dev/ttyMOCK0", line := none }
      none (some MockErr.badParams) rfl rfl rfl).2.1.1 h).2,
   ((C6_Open_success_stores_handle_and_timeout mock New mockConfig mockSys 0
      { confs := 1, wire := [], device := none, line := none }
      { confs := 1, wire := [], device := some "/dev/ttyMOCK0", line := none }
      { confs := 1, wire := [], device := some "/dev/ttyMOCK0", line := some (9600, 8, 1, "E") }
      none none rfl rfl rfl).2.2.2.2 rfl 64 [0, 0, 0] mockEchoing).1,
   ((C6_Open_success_stores_handle_and_timeout mock New mockConfig mockSys 0
      { confs := 1, wire := [], device := none, line := none }
      { confs := 1, wire := [], device := some "/dev/ttyMOCK0", line := none }
      { confs := 1, wire := [], device := some "/dev/ttyMOCK0", line := some (9600, 8, 1, "E") }
      none none rfl rfl rfl).2.2.2.2 rfl 64 [1, 2, 3] mockEchoing).2⟩

/-- C7 (counterexample): on the fresh port returned by `New`, `Read` and `Write`
do not return at all (nil dereference); on the port closed after a successful
`Open`, `Read` and `Write` do call the driver's blocking read and write. -/
theorem C7_counterexample :
    (port.Read 64 mock (New : port Nat) [0, 0, 0] mockSys).1 = Outcome.nilDeref ∧
    (port.Write mock (New : port Nat) [1, 2, 3] mockSys).1 = Outcome.nilDeref ∧
    (port.Write mock mockClosed.1 [1, 2, 3] mockClosed.2).2.log =
      mockClosed.2.log ++ [Event.blockingWrite 100 [1, 2, 3] 57600] ∧
    (port.Write mock mockClosed.1 [1, 2, 3] mockClosed.2).2.world.wire = [1, 2, 3] ∧
    (port.Read 64 mock mockClosed.1 [0, 0, 0] mockClosed.2).2.2.log =
      mockClosed.2.log ++ [Event.blockingRead 100 [0, 0, 0] 100] ∧
    port.Read 64 mock mockClosed.1 [0, 0, 0] mockEchoing =
      (Outcome.returned (2, none), [7, 9, 0],
        { world := { mockEchoing.world with wire := [] },
          log := mockEchoing.log ++ [Event.blockingRead 100 [0, 0, 0] 100] }) := by
  refine ⟨by decide, by decide, by decide, by decide, by decide, rfl⟩

/-- C7 (amended): on a port `p` without a handle (fresh from `New`), and on the
port `po` left by a failed `Open` of `p`, `Read` and `Write` make no driver
call and leave buffer and system untouched, aborting with a nil dereference
instead of returning an error.  After a successful `Open` of `p`, the port `pc`
left by `Close` still stores the handle and the timeout, and `Read` and
`Write` on it are the driver's blocking read and write called with that
handle, exactly as on the open port `po`. -/
theorem C7_unopened_aborts_closed_reaches_driver (L : Lsport W Ref H E) (p : port Ref)
    (c : Config) (σ : Sys W Ref H E) (b : List UInt8) (τ : Sys W Ref H E)
    (po pc : port Ref) (hp : p.fh = none)
    (hpo : po = (port.Open L p c σ).2.1)
    (hpc : pc = (port.Close L po (port.Open L p c σ).2.2).2.1) :
    (∀ UintSize : Nat, port.Read UintSize L p b τ = (Outcome.nilDeref, b, τ)) ∧
    port.Write L p b τ = (Outcome.nilDeref, τ) ∧
    ((port.Open L p c σ).1 ≠ none →
      (∀ UintSize : Nat, port.Read UintSize L po b τ = (Outcome.nilDeref, b, τ)) ∧
      port.Write L po b τ = (Outcome.nilDeref, τ)) ∧
    ((port.Open L p c σ).1 = none →
      pc = { fh := some (L.newConf σ.world).1, timeout := c.Timeout } ∧
      (∀ UintSize : Nat, port.Read UintSize L pc b τ =
        readFromAnswer
          (τ.log ++ [Event.blockingRead (L.Port τ.world (L.newConf σ.world).1) b
            (uint UintSize c.Timeout / uint UintSize (1 * Millisecond))])
          (L.BlockingRead (L.Port τ.world (L.newConf σ.world).1) b
            (uint UintSize c.Timeout / uint UintSize (1 * Millisecond)) τ.world)) ∧
      port.Write L pc b τ =
        writeFromAnswer
          (τ.log ++ [Event.blockingWrite (L.Port τ.world (L.newConf σ.world).1) b
            (uint16 c.Timeout)])
          (L.BlockingWrite (L.Port τ.world (L.newConf σ.world).1) b (uint16 c.Timeout)
            τ.world) ∧
      (∀ UintSize : Nat, port.Read UintSize L pc b τ = port.Read UintSize L po b τ) ∧
      port.Write L pc b τ = port.Write L po b τ) := by
  have hclose : pc = po := by
    rw [hpc]
    rfl
  refine ⟨fun U => port.Read_of_nil U L p b τ hp, port.Write_of_nil L p b τ hp, ?_, ?_⟩
  · intro hne
    have hq : po = p := by
      rw [hpo]
      cases g1 : (driverInit L c σ).1 with
      | some e => rw [port.Open_of_init_error L p c σ e g1]
      | none =>
        cases g2 : (driverSetParams L c σ).1 with
        | some e => rw [port.Open_of_params_error L p c σ e g1 g2]
        | none => exact absurd ((port.Open_error_eq_none_iff L p c σ).2 ⟨g1, g2⟩) hne
    rw [hq]
    exact ⟨fun U => port.Read_of_nil U L p b τ hp, port.Write_of_nil L p b τ hp⟩
  · intro hok
    obtain ⟨g1, g2⟩ := (port.Open_error_eq_none_iff L p c σ).1 hok
    have hpo2 : po = { fh := some (L.newConf σ.world).1, timeout := c.Timeout } := by
      rw [hpo, port.Open_of_success L p c σ g1 g2]
    rw [hclose]
    refine ⟨hpo2, ?_, ?_, fun _ => rfl, rfl⟩
    · intro U
      rw [hpo2]
      exact port.Read_eq_readFromAnswer U L _ (L.newConf σ.world).1 b τ rfl
    · rw [hpo2]
      exact port.Write_eq_writeFromAnswer L _ (L.newConf σ.world).1 b τ rfl

/-- Witness of C7 (amended): the fresh port on the mock driver aborts; after
`Open` and `Close` the port still holds handle 0, and with two bytes waiting on
the line `Read` and `Write` go through the mock driver with handle 100. -/
theorem C7_unopened_aborts_closed_reaches_driver_witness :
    (New : port Nat).fh = none ∧
    port.Read 64 mock (New : port Nat) [0, 0, 0] mockEchoing =
      (Outcome.nilDeref, [0, 0, 0], mockEchoing) ∧
    port.Write mock (New : port Nat) [0, 0, 0] mockEchoing = (Outcome.nilDeref, mockEchoing) ∧
    mockClosed.1 = { fh := some 0, timeout := 100000000 } ∧
    port.Read 64 mock mockClosed.1 [0, 0, 0] mockEchoing =
      readFromAnswer (mockEchoing.log ++ [Event.blockingRead 100 [0, 0, 0] 100])
        (mock.BlockingRead 100 [0, 0, 0] 100 mockEchoing.world) ∧
    port.Write mock mockClosed.1 [0, 0, 0] mockEchoing =
      writeFromAnswer (mockEchoing.log ++ [Event.blockingWrite 100 [0, 0, 0] 57600])
        (mock.BlockingWrite 100 [0, 0, 0] 57600 mockEchoing.world) ∧
    (mock.BlockingRead 100 [0, 0, 0] 100 mockEchoing.world).1 = ([7, 9, 0], 2, none) :=
  ⟨rfl,
   (C7_unopened_aborts_closed_reaches_driver mock New mockConfig mockSys [0, 0, 0] mockEchoing
      mockPort mockClosed.1 rfl rfl rfl).1 64,
   (C7_unopened_aborts_closed_reaches_driver mock New mockConfig mockSys [0, 0, 0] mockEchoing
      mockPort mockClosed.1 rfl rfl rfl).2.1,
   ((C7_unopened_aborts_closed_reaches_driver mock New mockConfig mockSys [0, 0, 0] mockEchoing
      mockPort mockClosed.1 rfl rfl rfl).2.2.2 rfl).1,
   ((C7_unopened_aborts_closed_reaches_driver mock New mockConfig mockSys [0, 0, 0] mockEchoing
      mockPort mockClosed.1 rfl rfl rfl).2.2.2 rfl).2.1 64,
   ((C7_unopened_aborts_closed_reaches_driver mock New mockConfig mockSys [0, 0, 0] mockEchoing
      mockPort mockClosed.1 rfl rfl rfl).2.2.2 rfl).2.2.1,
   by decide⟩

/-- C8: `port.Close` returns no error in every port state (with or without a
handle) and leaves the port value as it was; hence two `Close` calls in
sequence both return no error and the port after the second equals the port
after the first.  Each call hands the stored handle to the driver's `Close`. -/
theorem C8_Close_always_succeeds_idempotent (L : Lsport W Ref H E) (p : port Ref)
    (σ : Sys W Ref H E) :
    (port.Close L p σ).1 = none ∧
    (port.Close L p σ).2.1 = p ∧
    (port.Close L (port.Close L p σ).2.1 (port.Close L p σ).2.2).1 = none ∧
    (port.Close L (port.Close L p σ).2.1 (port.Close L p σ).2.2).2.1 =
      (port.Close L p σ).2.1 ∧
    (port.Close L (port.Close L p σ).2.1 (port.Close L p σ).2.2).2.2.log =
      σ.log ++ [Event.close p.fh, Event.close p.fh] := by
  simp [port.Close]

/-- C9: on an open port with a buffer of capacity `N`, if the driver's blocking
read reports no error and a count `k` with `0 ≤ k ≤ N`, then `port.Read`
returns `(k, no error)`, also when `k < N`, and whatever count it returns lies
in `0..N`. -/
theorem C9_Read_returns_driver_count (UintSize : Nat) (L : Lsport W Ref H E) (p : port Ref)
    (fh : Ref) (b : List UInt8) (σ : Sys W Ref H E) (k : Int) (hp : p.fh = some fh)
    (hok : (driverRead UintSize L fh p.timeout b σ).1.2.2 = none)
    (hk : (driverRead UintSize L fh p.timeout b σ).1.2.1 = k)
    (h0 : 0 ≤ k) (hN : k ≤ (b.length : Int)) :
    (port.Read UintSize L p b σ).1 = Outcome.returned (k, none) ∧
    (∀ n err, (port.Read UintSize L p b σ).1 = Outcome.returned (n, err) →
      0 ≤ n ∧ n ≤ (b.length : Int)) := by
  rw [port.Read_of_handle UintSize L p fh b σ hp]
  constructor
  · simp [hok, hk]
  · intro n err h
    simp only [hok, hk, Outcome.returned.injEq, Prod.mk.injEq] at h
    rw [← h.1]
    exact ⟨h0, hN⟩

/-- Witness of C9: two bytes are on the line of the mock driver and the buffer
has capacity 3; `Read` returns 2 without error. -/
theorem C9_Read_returns_driver_count_witness :
    (driverRead 64 mock 0 mockPort.timeout [0, 0, 0]
        (port.Write mock mockPort [7, 9] mockOpened).2).1.2 = (2, none) ∧
    (port.Read 64 mock mockPort [0, 0, 0] (port.Write mock mockPort [7, 9] mockOpened).2).1 =
      Outcome.returned (2, none) :=
  ⟨by decide,
   (C9_Read_returns_driver_count 64 mock mockPort 0 [0, 0, 0]
      (port.Write mock mockPort [7, 9] mockOpened).2 2 (by decide) (by decide) (by decide)
      (by decide) (by decide)).1⟩

/-- C10: on an open port with timeout `d`, `port.Write` is the driver's
`BlockingWrite` called with the stored handle, the data and the timeout
`d mod 65536`, the raw nanosecond count with no conversion to milliseconds: it
returns what lines 103-108 make of that call's answer.  A port with the same
handle whose timeout differs from `d` by a multiple of 65536 behaves
identically under `Write`, and with a timeout of exactly 65536 ns the driver
is called with timeout 0. -/
theorem C10_Write_timeout_is_raw_duration_mod_65536 (L : Lsport W Ref H E) (p : port Ref)
    (fh : Ref) (b : List UInt8) (σ : Sys W Ref H E) (hp : p.fh = some fh) :
    port.Write L p b σ =
      writeFromAnswer
        (σ.log ++ [Event.blockingWrite (L.Port σ.world fh) b (p.timeout % 65536).toNat])
        (L.BlockingWrite (L.Port σ.world fh) b (p.timeout % 65536).toNat σ.world) ∧
    (∀ q : port Ref, q.fh = some fh → (q.timeout - p.timeout) % 65536 = 0 →
      port.Write L q b σ = port.Write L p b σ) ∧
    (p.timeout = 65536 →
      port.Write L p b σ =
        writeFromAnswer (σ.log ++ [Event.blockingWrite (L.Port σ.world fh) b 0])
          (L.BlockingWrite (L.Port σ.world fh) b 0 σ.world)) := by
  have key : port.Write L p b σ =
      writeFromAnswer
        (σ.log ++ [Event.blockingWrite (L.Port σ.world fh) b (p.timeout % 65536).toNat])
        (L.BlockingWrite (L.Port σ.world fh) b (p.timeout % 65536).toNat σ.world) :=
    port.Write_eq_writeFromAnswer L p fh b σ hp
  refine ⟨key, ?_, ?_⟩
  · intro q hq hmod
    have hu : uint16 q.timeout = uint16 p.timeout := uint16_eq_of_congr _ _ hmod
    rw [port.Write_eq_writeFromAnswer L q fh b σ hq, port.Write_eq_writeFromAnswer L p fh b σ hp,
      hu]
  · intro hd
    rw [hd] at key
    exact key

/-- Witness of C10: with two bytes already on the line of the mock driver,
100 ms (100,000,000 ns) reaches the driver as 57600, and so does
100,000,000 + 65,536 ns; the three bytes written are appended to the line. -/
theorem C10_Write_timeout_is_raw_duration_mod_65536_witness :
    mockPort.fh = some 0 ∧
    port.Write mock mockPort [1, 2, 3] mockEchoing =
      writeFromAnswer (mockEchoing.log ++ [Event.blockingWrite 100 [1, 2, 3] 57600])
        (mock.BlockingWrite 100 [1, 2, 3] 57600 mockEchoing.world) ∧
    port.Write mock { fh := some 0, timeout := 100065536 } [1, 2, 3] mockEchoing =
      port.Write mock mockPort [1, 2, 3] mockEchoing ∧
    (mock.BlockingWrite 100 [1, 2, 3] 57600 mockEchoing.world).1 = (3, none) ∧
    (mock.BlockingWrite 100 [1, 2, 3] 57600 mockEchoing.world).2.wire = [7, 9, 1, 2, 3] :=
  ⟨by decide,
   (C10_Write_timeout_is_raw_duration_mod_65536 mock mockPort 0 [1, 2, 3] mockEchoing
      (by decide)).1,
   (C10_Write_timeout_is_raw_duration_mod_65536 mock mockPort 0 [1, 2, 3] mockEchoing
      (by decide)).2.1 { fh := some 0, timeout := 100065536 } rfl (by decide),
   by decide, by decide⟩

end Serial
